import Mathlib

/-!
Verification of the Los Ríos labor-force dashboard.

Shallow embedding of the JavaScript sources:
  src/dashboard/src/config/chartConfig.js   (ChartConfig constant)
  src/dashboard/public/src/core/entities.js (DataEntity, validate)
  services/dataService.js                   (DataService.getLosRiosData)
  components/chartBuilder.js                (TraceBuilder, LayoutBuilder)
  src/dashboard/public/src/components/chartRenderer.js (ChartRenderer)
  src/dashboard/src/main.js                 (Dashboard.init)
  core/interfaces.js                        (frozen enums, Events.COVID_YEAR)

JavaScript numbers are modelled as exact rationals (ℚ); strings as String.
The module-level constants ChartConfig and Events are the only global
state any function reads, and no function ever writes them; to make that
a provable statement rather than a modelling assumption, every function
that can reach the globals takes a `Globals` value and returns the
(possibly updated) `Globals` it leaves behind, exactly mirroring the
reads and (absent) writes of the source.  Exceptions are modelled with
`Except String`; the external Plotly.newPlot call is a parameter
returning `Except String Unit` (it may reject).
-/

/-- The `colors` block of ChartConfig (chartConfig.js lines 2-7). -/
structure Colors where
  total : String
  male : String
  female : String
  covid : String
deriving DecidableEq

/-- The `dimensions` block of ChartConfig (chartConfig.js lines 9-12). -/
structure Dimensions where
  width : ℚ
  height : ℚ
deriving DecidableEq

/-- The `fonts.sizes` block of ChartConfig (chartConfig.js lines 16-22). -/
structure FontSizes where
  title : ℚ
  axis : ℚ
  tick : ℚ
  legend : ℚ
  annotation : ℚ
deriving DecidableEq

/-- The `fonts` block of ChartConfig (chartConfig.js lines 14-23). -/
structure Fonts where
  family : String
  sizes : FontSizes
deriving DecidableEq

/-- The `theme` block of ChartConfig (chartConfig.js lines 25-29). -/
structure Theme where
  background : String
  textColor : String
  gridColor : String
deriving DecidableEq

/-- Shape of the ChartConfig constant (chartConfig.js). -/
structure ChartConfigT where
  colors : Colors
  dimensions : Dimensions
  fonts : Fonts
  theme : Theme
deriving DecidableEq

/-- Shape of the frozen Events object (interfaces.js lines 11-13). -/
structure EventsT where
  COVID_YEAR : ℚ
deriving DecidableEq

/-- The module-level constants visible to the program: `ChartConfig`
(chartConfig.js) and the frozen `Events` object (interfaces.js). -/
structure Globals where
  chartConfig : ChartConfigT
  events : EventsT
deriving DecidableEq

/-- The literal value of the ChartConfig constant (chartConfig.js). -/
def ChartConfig : ChartConfigT :=
  { colors := { total := "#1f77b4", male := "#d62728", female := "#ff7f0e", covid := "#8b5a3c" },
    dimensions := { width := 1100, height := 650 },
    fonts := { family := "Georgia, serif",
               sizes := { title := 22, axis := 14, tick := 12, legend := 14, annotation := 10 } },
    theme := { background := "white", textColor := "#1e293b", gridColor := "#e5e7eb" } }

/-- The literal value of the frozen Events object (interfaces.js):
`Events = Object.freeze({ COVID_YEAR: 2020 })`. -/
def Events : EventsT := { COVID_YEAR := 2020 }

/-- The global constants as the running program sees them. -/
def globals : Globals := { chartConfig := ChartConfig, events := Events }

/-- The series keys of the frozen DataSeries enum (interfaces.js lines 5-9):
TOTAL = "total", MALE = "male", FEMALE = "female".  These are the only
strings the program ever uses for the dynamic access `data[seriesKey]`. -/
inductive SeriesKey
  | total
  | male
  | female
deriving DecidableEq

/-- DataEntity (entities.js lines 1-14): four sequences set by the constructor. -/
structure DataEntity where
  years : List ℚ
  total : List ℚ
  male : List ℚ
  female : List ℚ
deriving DecidableEq

/-- `DataEntity.validate` (entities.js lines 9-13): three strict length
equalities chained with `&&`.  A pure function of the entity. -/
def DataEntity.validate (d : DataEntity) : Bool :=
  d.years.length == d.total.length &&
  d.years.length == d.male.length &&
  d.years.length == d.female.length

/-- The dynamic property access `data[seriesKey]` (chartBuilder.js line 8),
restricted to the three DataSeries keys the program uses. -/
def DataEntity.series (d : DataEntity) : SeriesKey → List ℚ
  | SeriesKey.total => d.total
  | SeriesKey.male => d.male
  | SeriesKey.female => d.female

/-- `DataService.getLosRiosData` (dataService.js lines 4-11): the hardcoded
sample dataset, 15 entries per sequence, values in thousands of persons. -/
def DataService.getLosRiosData : DataEntity :=
  { years := [2010, 2011, 2012, 2013, 2014, 2015, 2016, 2017, 2018, 2019, 2020, 2021, 2022, 2023, 2024],
    total := [155.0, 158.3, 161.7, 164.3, 165.2, 167.9, 170.7, 174.0, 176.5, 179.4, 165.5, 170.9, 180.1, 175.6, 183.3],
    male := [89.2, 91.1, 92.8, 94.2, 93.7, 95.1, 96.5, 98.1, 99.4, 100.8, 94.2, 96.8, 101.2, 98.2, 104.8],
    female := [65.8, 67.2, 68.9, 70.1, 71.5, 72.8, 74.2, 75.9, 77.1, 78.6, 71.3, 74.1, 78.9, 77.4, 78.5] }

/-- The `line` styling object of a trace (chartBuilder.js line 11). -/
structure TraceLine where
  color : String
  width : ℚ
deriving DecidableEq

/-- The `marker` styling object of a trace (chartBuilder.js line 12). -/
structure Marker where
  size : ℚ
  color : String
deriving DecidableEq

/-- A plottable trace description as built by TraceBuilder (chartBuilder.js lines 6-14). -/
structure Trace where
  x : List ℚ
  y : List ℚ
  mode : String
  name : String
  line : TraceLine
  marker : Marker
  hovertemplate : String
deriving DecidableEq

/-- `TraceBuilder.createTrace` (chartBuilder.js lines 5-15).  Reads no
global state and writes none: the globals come back unchanged. -/
def TraceBuilder.createTrace (g : Globals) (data : DataEntity) (seriesKey : SeriesKey)
    (name : String) (color : String) : Trace × Globals :=
  ({ x := data.years,
     y := data.series seriesKey,
     mode := "lines+markers",
     name := name,
     line := { color := color, width := 3 },
     marker := { size := 8, color := color },
     hovertemplate := "<b>" ++ name ++
       "</b><br>Año: %\x7bx\x7d<br>Fuerza de Trabajo: %\x7by:.1f\x7d miles<extra></extra>" },
   g)

/-- A font object with family, color and size (used by title, axes, legend
and annotations; the three JS literals list the same fields). -/
structure FontSpec where
  family : String
  color : String
  size : ℚ
deriving DecidableEq

/-- The layout-level font object (chartBuilder.js lines 40-43): family and color only. -/
structure BaseFont where
  family : String
  color : String
deriving DecidableEq

/-- The layout `title` object (chartBuilder.js lines 21-30). -/
structure TitleSpec where
  text : String
  x : ℚ
  font : FontSpec
  xanchor : String
deriving DecidableEq

/-- The `xaxis` object built by `LayoutBuilder._createXAxis` (chartBuilder.js lines 50-68). -/
structure XAxis where
  title : String
  titlefont : FontSpec
  tickfont : FontSpec
  showgrid : Bool
  showline : Bool
  linecolor : String
  linewidth : ℚ
  tick0 : ℚ
  dtick : ℚ
deriving DecidableEq

/-- The `yaxis` object built by `LayoutBuilder._createYAxis` (chartBuilder.js lines 72-90). -/
structure YAxis where
  title : String
  titlefont : FontSpec
  tickfont : FontSpec
  showgrid : Bool
  gridcolor : String
  gridwidth : ℚ
  showline : Bool
  linecolor : String
  linewidth : ℚ
deriving DecidableEq

/-- The `legend` object built by `LayoutBuilder._createLegend` (chartBuilder.js lines 94-108). -/
structure Legend where
  orientation : String
  yanchor : String
  y : ℚ
  xanchor : String
  x : ℚ
  bgcolor : String
  bordercolor : String
  borderwidth : ℚ
  font : FontSpec
deriving DecidableEq

/-- The `line` styling of a layout shape (chartBuilder.js lines 119-123). -/
structure ShapeLine where
  color : String
  width : ℚ
  dash : String
deriving DecidableEq

/-- One layout shape (chartBuilder.js lines 112-125): the vertical COVID
reference line, drawn from x0 to x1 over the full paper height. -/
structure Shape where
  type : String
  x0 : ℚ
  x1 : ℚ
  y0 : ℚ
  y1 : ℚ
  yref : String
  line : ShapeLine
  opacity : ℚ
deriving DecidableEq

/-- One layout annotation (chartBuilder.js lines 129-142): the COVID-19 label. -/
structure Annot where
  x : ℚ
  y : ℚ
  text : String
  showarrow : Bool
  font : FontSpec
  bgcolor : String
  bordercolor : String
  xanchor : String
deriving DecidableEq

/-- The layout description built by `LayoutBuilder.create` (chartBuilder.js lines 20-46). -/
structure Layout where
  title : TitleSpec
  xaxis : XAxis
  yaxis : YAxis
  hovermode : String
  width : ℚ
  height : ℚ
  showlegend : Bool
  legend : Legend
  plot_bgcolor : String
  paper_bgcolor : String
  font : BaseFont
  shapes : List Shape
  annotations : List Annot
deriving DecidableEq

/-- `LayoutBuilder._createXAxis` (chartBuilder.js lines 49-69): reads ChartConfig, writes nothing. -/
def LayoutBuilder._createXAxis (g : Globals) : XAxis × Globals :=
  ({ title := "Año",
     titlefont := { family := g.chartConfig.fonts.family,
                    color := g.chartConfig.theme.textColor,
                    size := g.chartConfig.fonts.sizes.axis },
     tickfont := { family := g.chartConfig.fonts.family,
                   color := g.chartConfig.theme.textColor,
                   size := g.chartConfig.fonts.sizes.tick },
     showgrid := false,
     showline := true,
     linecolor := g.chartConfig.theme.textColor,
     linewidth := 2,
     tick0 := 2010,
     dtick := 2 },
   g)

/-- `LayoutBuilder._createYAxis` (chartBuilder.js lines 71-91): reads ChartConfig, writes nothing. -/
def LayoutBuilder._createYAxis (g : Globals) : YAxis × Globals :=
  ({ title := "Fuerza de Trabajo (miles de personas)",
     titlefont := { family := g.chartConfig.fonts.family,
                    color := g.chartConfig.theme.textColor,
                    size := g.chartConfig.fonts.sizes.axis },
     tickfont := { family := g.chartConfig.fonts.family,
                   color := g.chartConfig.theme.textColor,
                   size := g.chartConfig.fonts.sizes.tick },
     showgrid := true,
     gridcolor := g.chartConfig.theme.gridColor,
     gridwidth := 1,
     showline := true,
     linecolor := g.chartConfig.theme.textColor,
     linewidth := 2 },
   g)

/-- `LayoutBuilder._createLegend` (chartBuilder.js lines 93-109): reads ChartConfig, writes nothing. -/
def LayoutBuilder._createLegend (g : Globals) : Legend × Globals :=
  ({ orientation := "h",
     yanchor := "top",
     y := 1.05,
     xanchor := "right",
     x := 0.98,
     bgcolor := "rgba(255,255,255,0.85)",
     bordercolor := "rgba(0,0,0,0)",
     borderwidth := 0,
     font := { family := g.chartConfig.fonts.family,
               color := g.chartConfig.theme.textColor,
               size := g.chartConfig.fonts.sizes.legend } },
   g)

/-- `LayoutBuilder._createShapes` (chartBuilder.js lines 111-126): the single
vertical reference line at Events.COVID_YEAR (x0 = x1 = COVID_YEAR). -/
def LayoutBuilder._createShapes (g : Globals) : List Shape × Globals :=
  ([{ type := "line",
      x0 := g.events.COVID_YEAR,
      x1 := g.events.COVID_YEAR,
      y0 := 0,
      y1 := 1,
      yref := "paper",
      line := { color := g.chartConfig.colors.covid, width := 1.5, dash := "dot" },
      opacity := 0.7 }],
   g)

/-- `LayoutBuilder._createAnnotations` (chartBuilder.js lines 128-143): the
single COVID-19 label at Events.COVID_YEAR. -/
def LayoutBuilder._createAnnotations (g : Globals) : List Annot × Globals :=
  ([{ x := g.events.COVID_YEAR,
      y := 180,
      text := "COVID-19",
      showarrow := false,
      font := { family := g.chartConfig.fonts.family,
                size := FontSizes.annotation g.chartConfig.fonts.sizes,
                color := g.chartConfig.colors.covid },
      bgcolor := "rgba(255,255,255,0.8)",
      bordercolor := "rgba(0,0,0,0)",
      xanchor := "center" }],
   g)

/-- `LayoutBuilder.create` (chartBuilder.js lines 19-47): assembles the one
layout object, threading the globals through every helper call. -/
def LayoutBuilder.create (g : Globals) : Layout × Globals :=
  let (xa, g1) := LayoutBuilder._createXAxis g
  let (ya, g2) := LayoutBuilder._createYAxis g1
  let (lg, g3) := LayoutBuilder._createLegend g2
  let (sh, g4) := LayoutBuilder._createShapes g3
  let (an, g5) := LayoutBuilder._createAnnotations g4
  ({ title := { text := "Evolución de la Fuerza de Trabajo - Región de Los Ríos (2010-2024)",
                x := 0.02,
                font := { size := g.chartConfig.fonts.sizes.title,
                          family := g.chartConfig.fonts.family,
                          color := g.chartConfig.theme.textColor },
                xanchor := "left" },
     xaxis := xa,
     yaxis := ya,
     hovermode := "x unified",
     width := g.chartConfig.dimensions.width,
     height := g.chartConfig.dimensions.height,
     showlegend := true,
     legend := lg,
     plot_bgcolor := g.chartConfig.theme.background,
     paper_bgcolor := g.chartConfig.theme.background,
     font := { family := g.chartConfig.fonts.family,
               color := g.chartConfig.theme.textColor },
     shapes := sh,
     annotations := an },
   g5)

/-- The display options object set in the ChartRenderer constructor
(chartRenderer.js lines 7-12). -/
structure RenderConfig where
  responsive : Bool
  displayModeBar : Bool
  displaylogo : Bool
  modeBarButtonsToRemove : List String
deriving DecidableEq

/-- A ChartRenderer instance (chartRenderer.js lines 4-13): target container
id plus the display options. -/
structure ChartRenderer where
  containerId : String
  config : RenderConfig
deriving DecidableEq

/-- The ChartRenderer constructor `new ChartRenderer(containerId)`
(chartRenderer.js lines 5-13). -/
def ChartRenderer.mkRenderer (containerId : String) : ChartRenderer :=
  { containerId := containerId,
    config := { responsive := true,
                displayModeBar := true,
                displaylogo := false,
                modeBarButtonsToRemove := ["pan2d", "lasso2d", "select2d"] } }

/-- `ChartRenderer._buildTraces` (chartRenderer.js lines 22-28): one trace
per series, names and colors taken from ChartConfig.colors. -/
def ChartRenderer._buildTraces (g : Globals) (data : DataEntity) : List Trace × Globals :=
  let (t1, g1) := TraceBuilder.createTrace g data SeriesKey.total "Ambos sexos"
    g.chartConfig.colors.total
  let (t2, g2) := TraceBuilder.createTrace g1 data SeriesKey.male "Hombres"
    g1.chartConfig.colors.male
  let (t3, g3) := TraceBuilder.createTrace g2 data SeriesKey.female "Mujeres"
    g2.chartConfig.colors.female
  ([t1, t2, t3], g3)

/-- The argument tuple the program hands to the external library:
`Plotly.newPlot(containerId, traces, layout, config)` (chartRenderer.js line 19). -/
structure PlotlyCall where
  containerId : String
  traces : List Trace
  layout : Layout
  config : RenderConfig
deriving DecidableEq

/-- `ChartRenderer.render` (chartRenderer.js lines 15-20): builds the traces
and the layout and assembles the Plotly.newPlot argument tuple.  The
external call itself is performed by the orchestrator model below. -/
def ChartRenderer.render (g : Globals) (self : ChartRenderer) (data : DataEntity) :
    PlotlyCall × Globals :=
  let (traces, g1) := ChartRenderer._buildTraces g data
  let (layout, g2) := LayoutBuilder.create g1
  ({ containerId := self.containerId, traces := traces, layout := layout, config := self.config },
   g2)

/-- Observable outcome of one run of `Dashboard.init` (main.js lines 9-21):
`uncaught` is the exception escaping init (none when init returns
normally), `renderCalls` counts invocations of the external
Plotly.newPlot call, `logs` records the console.error output of the
catch clause. -/
structure InitOutcome where
  uncaught : Option String
  renderCalls : Nat
  logs : List String
deriving DecidableEq

/-- `Dashboard.init` (main.js lines 9-21).  The data provider result and the
external Plotly.newPlot behaviour are parameters: `data` is what
`DataService.getLosRiosData()` returned, `plotly` is the external call,
which may reject with an error message.  The body runs inside
try/catch: a validation failure throws `Invalid data structure`, the
catch clause logs `Dashboard initialization failed: ...` and swallows
the error. -/
def Dashboard.init (g : Globals) (self : ChartRenderer) (data : DataEntity)
    (plotly : PlotlyCall → Except String Unit) : InitOutcome × Globals :=
  let ((tryResult, calls), g1) :=
    if data.validate then
      let (call, g2) := ChartRenderer.render g self data
      ((plotly call, 1), g2)
    else
      ((Except.error "Invalid data structure", 0), g)
  match tryResult with
  | Except.ok _ => ({ uncaught := none, renderCalls := calls, logs := [] }, g1)
  | Except.error e =>
      ({ uncaught := none, renderCalls := calls,
         logs := ["Dashboard initialization failed: " ++ e] }, g1)

/-- The dashboard the DOMContentLoaded handler constructs (main.js lines 24-27):
`new Dashboard()` sets `this.chartRenderer = new ChartRenderer('chart-container')`. -/
def Dashboard.chartRenderer : ChartRenderer := ChartRenderer.mkRenderer "chart-container"

/-! ### Shared lemmas -/

/-- The chained `&&` of three `==` length checks in `validate` holds exactly
when the three length equalities hold. -/
theorem validate_eq_true_iff (d : DataEntity) :
    d.validate = true ↔ (d.years.length = d.total.length ∧
      d.years.length = d.male.length ∧ d.years.length = d.female.length) := by
  simp [DataEntity.validate, Bool.and_eq_true, beq_iff_eq, and_assoc]

/-- A Bool-valued function that is not `true` is `false`: `validate` on any
length mismatch. -/
theorem validate_eq_false_of_mismatch (d : DataEntity)
    (h : ¬(d.years.length = d.total.length ∧ d.years.length = d.male.length ∧
      d.years.length = d.female.length)) : d.validate = false := by
  cases hv : d.validate with
  | false => rfl
  | true => exact absurd ((validate_eq_true_iff d).mp hv) h

/-! ### Claim theorems -/

/-- Claim C1: for every DataEntity built from four sequences, `validate`
returns a boolean that is true if and only if all four sequences have
equal length.  Side-effect freedom holds by the shape of the embedding:
`DataEntity.validate` is a plain function of the entity alone; it
receives no global state and returns only the boolean. -/
theorem DataEntity.validate_correct (d : DataEntity) :
    d.validate = true ↔ (d.years.length = d.total.length ∧
      d.years.length = d.male.length ∧ d.years.length = d.female.length) :=
  validate_eq_true_iff d

/-- Claim C2: whenever the four sequences do not all share the same length,
`validate` returns false and `Dashboard.init` performs zero calls to the
external render operation, for every renderer, every global state and
every behaviour of the external library. -/
theorem Dashboard.init_no_render_on_mismatch (g : Globals) (self : ChartRenderer)
    (d : DataEntity) (plotly : PlotlyCall → Except String Unit)
    (h : ¬(d.years.length = d.total.length ∧ d.years.length = d.male.length ∧
      d.years.length = d.female.length)) :
    d.validate = false ∧ ((Dashboard.init g self d plotly).1).renderCalls = 0 := by
  have hv := validate_eq_false_of_mismatch d h
  exact ⟨hv, by simp [Dashboard.init, hv]⟩

/-- Witness for C2 at a concrete mismatch: years has 1 entry, the other
three sequences are empty. -/
theorem Dashboard.init_no_render_on_mismatch_witness :
    (DataEntity.mk [2010] [] [] []).validate = false ∧
    ((Dashboard.init globals Dashboard.chartRenderer (DataEntity.mk [2010] [] [] [])
      (fun _ => Except.ok ())).1).renderCalls = 0 :=
  Dashboard.init_no_render_on_mismatch globals Dashboard.chartRenderer
    (DataEntity.mk [2010] [] [] []) (fun _ => Except.ok ()) (by decide)

/-- Claim C3: when all four sequences share length N, `validate` returns
true, `_buildTraces` produces exactly 3 trace descriptions, and the
render call carries the single layout object that `LayoutBuilder.create`
returns. -/
theorem assembler_output_counts (g : Globals) (self : ChartRenderer) (d : DataEntity)
    (N : Nat) (h : d.years.length = N ∧ d.total.length = N ∧ d.male.length = N ∧
      d.female.length = N) :
    d.validate = true ∧ ((ChartRenderer._buildTraces g d).1).length = 3 ∧
    ((ChartRenderer.render g self d).1).layout = (LayoutBuilder.create g).1 := by
  refine ⟨(validate_eq_true_iff d).mpr ?_, rfl, rfl⟩
  exact ⟨h.1.trans h.2.1.symm, h.1.trans h.2.2.1.symm, h.1.trans h.2.2.2.symm⟩

/-- Witness for C3 at the hardcoded sample dataset, N = 15. -/
theorem assembler_output_counts_witness :
    DataService.getLosRiosData.validate = true ∧
    ((ChartRenderer._buildTraces globals DataService.getLosRiosData).1).length = 3 ∧
    ((ChartRenderer.render globals Dashboard.chartRenderer DataService.getLosRiosData).1).layout =
      (LayoutBuilder.create globals).1 :=
  assembler_output_counts globals Dashboard.chartRenderer DataService.getLosRiosData 15
    (by refine ⟨?_, ?_, ?_, ?_⟩ <;> decide)

/-- Claim C4: the assembler is deterministic and side-effect-free.  Two
calls of `TraceBuilder.createTrace` (resp. `LayoutBuilder.create`) on
structurally identical inputs yield structurally identical outputs, and
the global state each call returns is exactly the global state it
received: no program state is modified. -/
theorem assembler_deterministic_and_pure (g g' : Globals) (d d' : DataEntity)
    (k : SeriesKey) (n c : String) (hg : g = g') (hd : d = d') :
    TraceBuilder.createTrace g d k n c = TraceBuilder.createTrace g' d' k n c ∧
    (TraceBuilder.createTrace g d k n c).2 = g ∧
    LayoutBuilder.create g = LayoutBuilder.create g' ∧
    (LayoutBuilder.create g).2 = g := by
  subst hg; subst hd
  exact ⟨rfl, rfl, rfl, rfl⟩

/-- Witness for C4 at the program's own globals, the sample dataset and the
total series. -/
theorem assembler_deterministic_and_pure_witness :
    TraceBuilder.createTrace globals DataService.getLosRiosData SeriesKey.total
        "Ambos sexos" "#1f77b4" =
      TraceBuilder.createTrace globals DataService.getLosRiosData SeriesKey.total
        "Ambos sexos" "#1f77b4" ∧
    (TraceBuilder.createTrace globals DataService.getLosRiosData SeriesKey.total
        "Ambos sexos" "#1f77b4").2 = globals ∧
    LayoutBuilder.create globals = LayoutBuilder.create globals ∧
    (LayoutBuilder.create globals).2 = globals :=
  assembler_deterministic_and_pure globals globals DataService.getLosRiosData
    DataService.getLosRiosData SeriesKey.total "Ambos sexos" "#1f77b4" rfl rfl

/-- Claim C5: on the hardcoded sample dataset (15 entries per sequence),
`validate` returns true, the three traces are named "Ambos sexos",
"Hombres" and "Mujeres" in series order total, male, female, and the
layout contains exactly one shape, a vertical marker with
x0 = x1 = 2020. -/
theorem sample_dataset_render_facts :
    DataService.getLosRiosData.validate = true ∧
    ((ChartRenderer._buildTraces globals DataService.getLosRiosData).1).map
      (fun t => t.name) = ["Ambos sexos", "Hombres", "Mujeres"] ∧
    ((LayoutBuilder.create globals).1).shapes.map (fun s => (s.x0, s.x1)) =
      [(2020, 2020)] :=
  ⟨by decide, rfl, rfl⟩

/-- Claim C6: on four empty sequences, `validate` returns true (vacuously
equal lengths), the assembler returns exactly 3 traces, each with empty
x and y coordinate arrays, and a full init run raises no error: nothing
escapes, nothing is logged. -/
theorem empty_dataset_render_facts :
    (DataEntity.mk [] [] [] []).validate = true ∧
    ((ChartRenderer._buildTraces globals (DataEntity.mk [] [] [] [])).1).length = 3 ∧
    ((ChartRenderer._buildTraces globals (DataEntity.mk [] [] [] [])).1).map
      (fun t => (t.x, t.y)) = [([], []), ([], []), ([], [])] ∧
    (Dashboard.init globals Dashboard.chartRenderer (DataEntity.mk [] [] [] [])
      (fun _ => Except.ok ())).1 =
      { uncaught := none, renderCalls := 1, logs := [] } :=
  ⟨rfl, rfl, rfl, rfl⟩

/-- Claim C7: every error raised inside `Dashboard.init` is caught by its
try/catch: nothing ever escapes init (`uncaught = none` always), a
validation failure is logged as a failure, and a rejection of the
external draw call is logged as a failure. -/
theorem Dashboard.init_catches_all_errors (g : Globals) (self : ChartRenderer)
    (d : DataEntity) (plotly : PlotlyCall → Except String Unit) :
    ((Dashboard.init g self d plotly).1).uncaught = none ∧
    (d.validate = false → ((Dashboard.init g self d plotly).1).logs =
      ["Dashboard initialization failed: Invalid data structure"]) ∧
    (∀ e, d.validate = true → plotly ((ChartRenderer.render g self d).1) = Except.error e →
      ((Dashboard.init g self d plotly).1).logs = ["Dashboard initialization failed: " ++ e]) := by
  cases hv : d.validate with
  | false =>
      refine ⟨?_, fun _ => ?_, fun e ht => absurd ht (by simp [hv])⟩ <;> simp [Dashboard.init, hv]
  | true =>
      refine ⟨?_, fun hf => by simp [hv] at hf, fun e _ he => ?_⟩
      · unfold Dashboard.init
        simp only [hv, if_true]
        cases plotly ((ChartRenderer.render g self d).1) <;> rfl
      · unfold Dashboard.init
        simp only [hv, if_true]
        rw [show (ChartRenderer.render g self d) = ((ChartRenderer.render g self d).1,
          (ChartRenderer.render g self d).2) from rfl] at *
        simp [he]

/-- Witness for C7: a run on the sample dataset where the external library
rejects; the rejection is logged and does not escape. -/
theorem Dashboard.init_catches_all_errors_witness :
    ((Dashboard.init globals Dashboard.chartRenderer DataService.getLosRiosData
      (fun _ => Except.error "Plotly failure")).1).uncaught = none ∧
    (DataService.getLosRiosData.validate = false →
      ((Dashboard.init globals Dashboard.chartRenderer DataService.getLosRiosData
        (fun _ => Except.error "Plotly failure")).1).logs =
        ["Dashboard initialization failed: Invalid data structure"]) ∧
    (∀ e, DataService.getLosRiosData.validate = true →
      (fun (_ : PlotlyCall) => Except.error (ε := String) (α := Unit) "Plotly failure")
        ((ChartRenderer.render globals Dashboard.chartRenderer DataService.getLosRiosData).1) =
        Except.error e →
      ((Dashboard.init globals Dashboard.chartRenderer DataService.getLosRiosData
        (fun _ => Except.error "Plotly failure")).1).logs =
        ["Dashboard initialization failed: " ++ e]) :=
  Dashboard.init_catches_all_errors globals Dashboard.chartRenderer DataService.getLosRiosData
    (fun _ => Except.error "Plotly failure")

/-- Claim C8: for every input data, the 3 traces have x equal to the years
sequence, y equal to the corresponding series (total, male, female in
key order), the display names "Ambos sexos", "Hombres", "Mujeres", the
configured per-series color in both line and marker styling, and a
hover template that embeds the display name. -/
theorem traces_follow_contract (g : Globals) (d : DataEntity) :
    ((ChartRenderer._buildTraces g d).1).map (fun t => t.x) = [d.years, d.years, d.years] ∧
    ((ChartRenderer._buildTraces g d).1).map (fun t => t.y) = [d.total, d.male, d.female] ∧
    ((ChartRenderer._buildTraces g d).1).map (fun t => t.name) =
      ["Ambos sexos", "Hombres", "Mujeres"] ∧
    ((ChartRenderer._buildTraces g d).1).map (fun t => t.line.color) =
      [g.chartConfig.colors.total, g.chartConfig.colors.male, g.chartConfig.colors.female] ∧
    ((ChartRenderer._buildTraces g d).1).map (fun t => t.marker.color) =
      [g.chartConfig.colors.total, g.chartConfig.colors.male, g.chartConfig.colors.female] ∧
    ((ChartRenderer._buildTraces g d).1).map (fun t => t.hovertemplate) =
      ["<b>" ++ "Ambos sexos" ++
         "</b><br>Año: %\x7bx\x7d<br>Fuerza de Trabajo: %\x7by:.1f\x7d miles<extra></extra>",
       "<b>" ++ "Hombres" ++
         "</b><br>Año: %\x7bx\x7d<br>Fuerza de Trabajo: %\x7by:.1f\x7d miles<extra></extra>",
       "<b>" ++ "Mujeres" ++
         "</b><br>Año: %\x7bx\x7d<br>Fuerza de Trabajo: %\x7by:.1f\x7d miles<extra></extra>"] :=
  ⟨rfl, rfl, rfl, rfl, rfl, rfl⟩

/-- Claim C9: the style/config constants are static and immutable.  Every
operation of the program returns the global state it received unchanged
(no operation mutates ChartConfig or Events), and the program constants
hold their literal values: in particular the notable-event marker year
is 2020. -/
theorem globals_never_mutated (g : Globals) (self : ChartRenderer) (d : DataEntity)
    (plotly : PlotlyCall → Except String Unit) (k : SeriesKey) (n c : String) :
    (TraceBuilder.createTrace g d k n c).2 = g ∧
    (LayoutBuilder.create g).2 = g ∧
    (ChartRenderer._buildTraces g d).2 = g ∧
    (ChartRenderer.render g self d).2 = g ∧
    (Dashboard.init g self d plotly).2 = g ∧
    globals.chartConfig = ChartConfig ∧
    globals.events = Events ∧
    globals.events.COVID_YEAR = 2020 := by
  refine ⟨rfl, rfl, rfl, rfl, ?_, rfl, rfl, rfl⟩
  unfold Dashboard.init
  cases hv : d.validate
  · simp [hv]
  · simp only [hv, if_true]
    cases plotly ((ChartRenderer.render g self d).1) <;> rfl

/-- Claim C10: in the hardcoded dataset, male + female equals total exactly
at every one of the 15 indices (exact rational arithmetic): the three
series have length 15 and the pointwise sum of male and female is the
total series. -/
theorem sample_dataset_additivity :
    DataService.getLosRiosData.male.length = 15 ∧
    DataService.getLosRiosData.female.length = 15 ∧
    DataService.getLosRiosData.total.length = 15 ∧
    List.zipWith (fun a b => a + b) DataService.getLosRiosData.male
      DataService.getLosRiosData.female = DataService.getLosRiosData.total :=
  ⟨rfl, rfl, rfl, by norm_num [DataService.getLosRiosData, List.zipWith]⟩
